import Mathlib

/-!
Verification of the ExZodus contract-driven validation pipeline.

Shallow embedding of the runtime behavior of `ExZodusRouter` (server-side
request/response validation middleware) and `ExZodusClient` (request
construction and error classification).  Zod schemas are external
collaborators: a schema is modelled as a partial function from values to
parsed values, where `none` models a thrown validation error.
-/

namespace ExZodus

/-- A JSON-like runtime value: null, booleans, numbers, strings and objects
(ordered association lists of fields, matching JS object key insertion
order). -/
inductive Value where
  | vNull : Value
  | vBool (b : Bool) : Value
  | vNum (n : Int) : Value
  | vStr (s : String) : Value
  | vObj (fields : List (String × Value)) : Value

/-- A Zod schema, abstracted to its runtime interface: `parse` either
returns the parsed (possibly coerced/stripped) value or throws, modelled
by `none`. -/
def Schema : Type := Value → Option Value

/-- The runtime behavior of `z.object({}).parse`: any object input is
accepted and all unknown keys are stripped (Zod object schemas strip by
default), producing the empty object; any non-object input throws. -/
def emptyObjectSchema : Schema := fun v =>
  match v with
  | .vObj _ => some (.vObj [])
  | _ => none

/-- One endpoint descriptor of the API definition (the value of
`apiDef[path][method]`).  The `responses` record holds the numeric status
code keys; the literal `"default"` key is kept separately, mirroring that
in JS it is a distinct string key that a numeric index can never hit. -/
structure RouteDescription where
  request : Option Schema
  paramPath : Option Schema
  paramQuery : Option Schema
  paramHeader : Option Schema
  responses : List (Nat × Schema)
  responsesDefault : Option Schema

/-- The mutable per-request state the middleware reads and writes:
`req.params`, `req.query`, `req.body` and the `content-type` header. -/
structure Req where
  params : Value
  query : Value
  body : Value
  contentType : Option String

/-- Which `parse` call threw inside the request validator's `try` block. -/
inductive ZodFailure where
  | path : ZodFailure
  | query : ZodFailure
  | body : ZodFailure
deriving DecidableEq, Repr

/-- The body of the boolean pre-coercion loop of the request validator:
a value that is exactly the string "true" (resp. "false") is replaced by
the boolean true (resp. false); any other value is left untouched. -/
def coerceBool : Value → Value
  | .vStr s =>
    if s = "true" then .vBool true
    else if s = "false" then .vBool false
    else .vStr s
  | v => v

/-- Apply the boolean pre-coercion to every field of a query object. -/
def coerceQuery : Value → Value
  | .vObj fs => .vObj (fs.map fun kv => (kv.1, coerceBool kv.2))
  | v => v

/-- First step of the request validator `try` block: parse `req.params`
against the declared path schema, or against `z.object({})` when none is
declared, writing the parsed value back into `req.params`.  An error
carries the request state visible to the `catch` block at that point. -/
def pathStage (rd : RouteDescription) (req : Req) :
    Except (ZodFailure × Req) Req :=
  match rd.paramPath with
  | some s =>
    match s req.params with
    | some p => .ok { req with params := p }
    | none => .error (.path, req)
  | none =>
    match emptyObjectSchema req.params with
    | some p => .ok { req with params := p }
    | none => .error (.path, req)

/-- Second step: when a query schema is declared, first mutate `req.query`
by the boolean pre-coercion loop, then parse; when none is declared, parse
against `z.object({})`.  On success the parsed value replaces `req.query`;
on failure the request keeps the mutations made so far. -/
def queryStage (rd : RouteDescription) (req : Req) :
    Except (ZodFailure × Req) Req :=
  match rd.paramQuery with
  | some s =>
    match s (coerceQuery req.query) with
    | some q => .ok { req with query := q }
    | none => .error (.query, { req with query := coerceQuery req.query })
  | none =>
    match emptyObjectSchema req.query with
    | some q => .ok { req with query := q }
    | none => .error (.query, req)

/-- Third step: only when the `content-type` header is exactly
"application/json" and the descriptor declares a request body schema is
`req.body` parsed and replaced; in every other case the body is left
completely untouched. -/
def bodyStage (rd : RouteDescription) (req : Req) :
    Except (ZodFailure × Req) Req :=
  if req.contentType = some ("application/json") then
    match rd.request with
    | some s =>
      match s req.body with
      | some b => .ok { req with body := b }
      | none => .error (.body, req)
    | none => .ok req
  else .ok req

/-- The whole `try` block of the request validator: path, then query, then
body, aborting at the first throwing `parse`. -/
def runValidation (rd : RouteDescription) (req : Req) :
    Except (ZodFailure × Req) Req :=
  (pathStage rd req).bind fun r₁ => (queryStage rd r₁).bind fun r₂ => bodyStage rd r₂

/-- Observable outcome of one run of the request validator middleware:
the list of error-handler invocations (each with the thrown failure and
the request state handed to the handler), whether `next()` was called
(i.e. whether the wrapped handler chain continues), and the final request
state. -/
structure ValidatorRun where
  errorCalls : List (ZodFailure × Req)
  nextCalled : Bool
  req : Req

/-- The request validator middleware: run the `try` block; on success call
`next()`; on a thrown validation error call the configured error handler
exactly once with the failure and the in-flight request. -/
def requestValidator (rd : RouteDescription) (req : Req) : ValidatorRun :=
  match runValidation rd req with
  | .ok r => { errorCalls := [], nextCalled := true, req := r }
  | .error (e, r) => { errorCalls := [(e, r)], nextCalled := false, req := r }

/-- The fixed fallback body sent when a handler-produced response body
fails validation. -/
def internalErrorBody : Value :=
  .vObj [("status", .vStr ("Internal server error")),
         ("message", .vStr ("Server generated response is out of API spec"))]

/-- The observable server response state: the current status code and the
sequence of bodies transmitted by the original `res.json`. -/
structure Res where
  statusCode : Nat
  sentBodies : List Value

/-- The schema the interceptor resolves for a status code:
`routeDescription.responses?.[res.statusCode]` — a plain numeric key
lookup.  The string key `"default"` is never consulted here. -/
def lookupResponse (rd : RouteDescription) (code : Nat) : Option Schema :=
  rd.responses.lookup code

/-- The overriding `res.json` installed by the response validator: compute
`responses?.[statusCode]?.parse(body) ?? body` inside a `try`; on success
transmit the result through the original `res.json`; on a thrown
validation error set status 500 and transmit the fixed fallback body.
Note `??` in JS also replaces a successfully-parsed `null` with the raw
body. -/
def overriddenJson (rd : RouteDescription) (res : Res) (body : Value) : Res :=
  match lookupResponse rd res.statusCode with
  | none => { res with sentBodies := res.sentBodies ++ [body] }
  | some s =>
    match s body with
    | some .vNull => { res with sentBodies := res.sentBodies ++ [body] }
    | some parsed => { res with sentBodies := res.sentBodies ++ [parsed] }
    | none =>
      { res with statusCode := 500,
                 sentBodies := res.sentBodies ++ [internalErrorBody] }

/-- A handler calling `res.json` several times on the same wrapped
response: the override installed by the response validator is never
uninstalled, so every send goes through `overriddenJson`. -/
def sendSequence (rd : RouteDescription) (res : Res) (bodies : List Value) : Res :=
  bodies.foldl (overriddenJson rd) res

/-! Route registration (`ExZodusRouter.new`): each supported method's
registrar is overridden to look up the descriptor for (path, method) once
at registration time and splice the validation middleware in front of the
caller's handlers; when no descriptor matches, registration is delegated
unchanged. -/

/-- An element of the middleware chain express ends up with for a route:
either one of the caller's handlers (opaque, identified by a number) or
one of the two middleware functions the wrapper may prepend. -/
inductive Handler where
  | user (id : Nat) : Handler
  | requestValidatorMw : Handler
  | responseValidatorMw : Handler
deriving DecidableEq, Repr

/-- The configuration object passed to `ExZodusRouter.new` (the error
handler itself is opaque to the registration logic). -/
structure RouterConfig where
  attachResponseValidator : Bool

/-- The API definition: path → method → endpoint descriptor. -/
def Api : Type := List (String × List (String × RouteDescription))

/-- The lookup `apiDef[path]?.[method] ?? undefined`. -/
def lookupRoute (apiDef : Api) (path method : String) : Option RouteDescription :=
  (apiDef.lookup path).bind fun byMethod => byMethod.lookup method

/-- The overridden registrar for one supported method: produce the
flattened handler chain handed to the original express registrar.  No
descriptor → exactly the caller's handlers; descriptor present → the
request validator, then (when enabled) the response validator, then the
caller's handlers. -/
def registerRoute (apiDef : Api) (config : RouterConfig) (method path : String)
    (handlers : List Handler) : List Handler :=
  match lookupRoute apiDef path method with
  | none => handlers
  | some _ =>
    if config.attachResponseValidator then
      Handler.requestValidatorMw :: Handler.responseValidatorMw :: handlers
    else
      Handler.requestValidatorMw :: handlers

/-! Client side (`ExZodusClient`): request construction and error
classification. -/

/-- A path-parameter value: the source types it `string | number`. -/
inductive PathValue where
  | str (s : String) : PathValue
  | num (n : Int) : PathValue
deriving DecidableEq, Repr

/-- JS `.toString()` on a path-parameter value. -/
def PathValue.asString : PathValue → String
  | .str s => s
  | .num n => toString n

/-- Whether `pat` is an initial segment of `s` (character lists). -/
def startsWith (pat s : List Char) : Bool :=
  pat == s.take pat.length

/-- JS `String.prototype.replace` with a string pattern: replace only the
first occurrence of `pat` in `s` by `repl`; when `pat` does not occur,
return `s` unchanged. -/
def listReplaceFirst (pat repl : List Char) : List Char → List Char
  | [] => if pat == [] then repl else []
  | c :: rest =>
    if startsWith pat (c :: rest) then repl ++ (c :: rest).drop pat.length
    else c :: listReplaceFirst pat repl rest

/-- String version of `listReplaceFirst`. -/
def replaceFirst (s pat repl : String) : String :=
  ⟨listReplaceFirst pat.data repl.data s.data⟩

/-- `ExZodusClient.replacePathParams`: for each key of the `path` object
in insertion order, run `url.replace(":" + key, value.toString())`. -/
def replacePathParams (url : String) (path : List (String × PathValue)) : String :=
  path.foldl (fun acc kv => replaceFirst acc (":" ++ kv.1) kv.2.asString) url

/-- The `config` argument of a client call: an object whose optional keys
are `path`, `query`, `header`, `body`, `responseType`. -/
structure ClientInput where
  path : Option (List (String × PathValue)) := none
  query : Option Value := none
  header : Option Value := none
  body : Option Value := none
  responseType : Option String := none

/-- The outbound request descriptor handed to axios. -/
structure AxiosRequestConfig where
  method : String
  url : String
  headers : Option Value := none
  params : Option Value := none
  data : Option Value := none
  responseType : Option String := none

/-- `ExZodusClient.buildAxiosConfig`: with no config, the URL is the path
template unmodified; with a config, path parameters are substituted when a
`path` key is present and the remaining keys map straight through. -/
def buildAxiosConfig (method : String) (path : String)
    (config : Option ClientInput) : AxiosRequestConfig :=
  match config with
  | none => { method := method, url := path }
  | some cfg =>
    { method := method
      url := match cfg.path with
             | some p => replacePathParams path p
             | none => path
      headers := cfg.header
      params := cfg.query
      data := cfg.body
      responseType := cfg.responseType }

/-- The parts of a caught axios error that `isErrorOf` inspects: the
request config it originated from (optional, with optional method and
url). -/
structure AxiosErrorConfig where
  method : Option String
  url : Option String
deriving DecidableEq, Repr

/-- The response attached to a caught axios error; absent on network
failures that received no response. -/
structure AxiosErrorResponse where
  status : Nat
deriving DecidableEq, Repr

/-- An arbitrary caught value as `isErrorOf` sees it: whether it is an
`AxiosError` instance (non-transport errors are modelled with this flag
false), and when it is, its optional `config` and `response`. -/
structure CaughtValue where
  isAxiosError : Bool
  config : Option AxiosErrorConfig
  response : Option AxiosErrorResponse
deriving DecidableEq, Repr

/-- `ExZodusClient.isErrorOf`: false unless the caught value is an
`AxiosError` whose `config?.method` equals the method, whose `config?.url`
equals the path, and whose `response?.status` equals the code. -/
def isErrorOf (err : CaughtValue) (method path : String) (code : Nat) : Bool :=
  if !err.isAxiosError then false
  else if (err.config.bind AxiosErrorConfig.method) ≠ some method then false
  else if (err.config.bind AxiosErrorConfig.url) ≠ some path then false
  else if (err.response.map AxiosErrorResponse.status) ≠ some code then false
  else true

/-! Sample schemas and descriptors used to instantiate the theorems on
concrete inputs. -/

/-- A schema that accepts every value and returns it unchanged. -/
def idSchema : Schema := fun v => some v

/-- A schema that rejects (throws on) every value. -/
def rejectAll : Schema := fun _ => none

/-- A schema accepting exactly the string "ok". -/
def acceptOk : Schema := fun v =>
  match v with
  | .vStr s => if s = "ok" then some (.vStr s) else none
  | _ => none

/-- A coercing schema returning the fixed object { id: 7 } on any input,
standing for a Zod schema whose parsed output differs from its input. -/
def constIdObj : Schema := fun _ => some (.vObj [(("id"), .vNum 7)])

/-- A descriptor documenting only a `default` response schema (which
rejects everything) and no numeric status code. -/
def rdDefaultOnly : RouteDescription :=
  { request := none, paramPath := none, paramQuery := none,
    paramHeader := none, responses := [], responsesDefault := some rejectAll }

/-- A descriptor documenting exactly one response schema, for status 200. -/
def rdOk200 : RouteDescription :=
  { request := none, paramPath := none, paramQuery := none,
    paramHeader := none, responses := [(200, acceptOk)], responsesDefault := none }

/-- A descriptor declaring only a path-parameter schema. -/
def rdPathOnly : RouteDescription :=
  { request := none, paramPath := some constIdObj, paramQuery := none,
    paramHeader := none, responses := [], responsesDefault := none }

/-- A descriptor whose path-parameter schema rejects everything. -/
def rdPathReject : RouteDescription :=
  { request := none, paramPath := some rejectAll, paramQuery := none,
    paramHeader := none, responses := [], responsesDefault := none }

/-- A descriptor with a passing path schema and a rejecting query schema. -/
def rdQueryReject : RouteDescription :=
  { request := none, paramPath := some idSchema, paramQuery := some rejectAll,
    paramHeader := none, responses := [], responsesDefault := none }

/-- A descriptor declaring only a query schema that accepts everything. -/
def rdQueryId : RouteDescription :=
  { request := none, paramPath := none, paramQuery := some idSchema,
    paramHeader := none, responses := [], responsesDefault := none }

/-- A descriptor whose request body schema rejects everything. -/
def rdBodyReject : RouteDescription :=
  { request := some rejectAll, paramPath := none, paramQuery := none,
    paramHeader := none, responses := [], responsesDefault := none }

/-- A sample request with one raw path parameter, an empty query and no
body. -/
def reqSample : Req :=
  { params := .vObj [(("id"), .vStr ("7"))], query := .vObj [],
    body := .vNull, contentType := none }

/-! Frame lemmas: each validator stage touches only its own category of
the request. -/

/-- A successful query stage changes only `req.query`. -/
theorem queryStage_ok_frame (rd : RouteDescription) (req r : Req)
    (h : queryStage rd req = .ok r) :
    r.params = req.params ∧ r.body = req.body ∧ r.contentType = req.contentType := by
  unfold queryStage at h
  split at h
  · split at h
    · cases h; exact ⟨rfl, rfl, rfl⟩
    · cases h
  · split at h
    · cases h; exact ⟨rfl, rfl, rfl⟩
    · cases h

/-- A failing query stage hands the catch block a request whose `params`,
`body` and `contentType` are unchanged. -/
theorem queryStage_error_frame (rd : RouteDescription) (req : Req)
    (e : ZodFailure) (r : Req)
    (h : queryStage rd req = .error (e, r)) :
    r.params = req.params ∧ r.body = req.body ∧ r.contentType = req.contentType := by
  unfold queryStage at h
  split at h
  · split at h
    · cases h
    · cases h; exact ⟨rfl, rfl, rfl⟩
  · split at h
    · cases h
    · cases h; exact ⟨rfl, rfl, rfl⟩

/-- A successful body stage changes only `req.body`. -/
theorem bodyStage_ok_frame (rd : RouteDescription) (req r : Req)
    (h : bodyStage rd req = .ok r) :
    r.params = req.params ∧ r.query = req.query := by
  unfold bodyStage at h
  split at h
  · split at h
    · split at h
      · cases h; exact ⟨rfl, rfl⟩
      · cases h
    · cases h; exact ⟨rfl, rfl⟩
  · cases h; exact ⟨rfl, rfl⟩

/-- A failing body stage hands the catch block the request unchanged. -/
theorem bodyStage_error_frame (rd : RouteDescription) (req : Req)
    (e : ZodFailure) (r : Req)
    (h : bodyStage rd req = .error (e, r)) : r = req := by
  unfold bodyStage at h
  split at h
  · split at h
    · split at h
      · cases h
      · cases h; rfl
    · cases h
  · cases h

/-- Claim C1 is false on the code: with a descriptor documenting no entry
for status 200 but carrying a `default` schema that rejects everything,
a handler body sent at status 200 is forwarded unchecked (status stays
200, raw body transmitted) — the interceptor never consults the `default`
schema, contradicting "only when neither exists is the body forwarded
unchecked". -/
theorem C1_counterexample :
    lookupResponse rdDefaultOnly 200 = none ∧
    rdDefaultOnly.responsesDefault = some rejectAll ∧
    rejectAll (.vStr ("leak")) = none ∧
    overriddenJson rdDefaultOnly { statusCode := 200, sentBodies := [] } (.vStr ("leak")) =
      { statusCode := 200, sentBodies := [.vStr ("leak")] } :=
  ⟨rfl, rfl, rfl, rfl⟩

/-- When the status code has no entry in the numeric responses mapping,
the body is forwarded unchecked. -/
theorem overriddenJson_of_lookup_none (rd : RouteDescription) (res : Res) (body : Value)
    (h : lookupResponse rd res.statusCode = none) :
    overriddenJson rd res body = { res with sentBodies := res.sentBodies ++ [body] } := by
  unfold overriddenJson
  rw [h]

/-- When the resolved schema rejects the body, the response becomes the
fixed 500 internal-error response. -/
theorem overriddenJson_of_parse_fail (rd : RouteDescription) (res : Res) (body : Value)
    (s : Schema) (hs : lookupResponse rd res.statusCode = some s) (hb : s body = none) :
    overriddenJson rd res body =
      { statusCode := 500, sentBodies := res.sentBodies ++ [internalErrorBody] } := by
  simp [overriddenJson, hs, hb]

/-- Claim C1 (amended): the Response Interceptor resolves the schema by a
plain lookup of the exact status code in the descriptor's numeric
responses mapping; when that status code has no entry, the body is
forwarded unchecked regardless of whether a `default` schema is present —
the `default` key is never consulted by the interceptor. -/
theorem C1_response_schema_resolution (rd : RouteDescription) (res : Res) (body : Value) :
    (lookupResponse rd res.statusCode = none →
      overriddenJson rd res body = { res with sentBodies := res.sentBodies ++ [body] }) ∧
    (∀ s, lookupResponse rd res.statusCode = some s → s body = none →
      overriddenJson rd res body =
        { statusCode := 500, sentBodies := res.sentBodies ++ [internalErrorBody] }) :=
  ⟨overriddenJson_of_lookup_none rd res body,
   fun s hs hb => overriddenJson_of_parse_fail rd res body s hs hb⟩

/-- Witness for C1: the undocumented-status branch at status 404 of a
descriptor documenting only 200, and the exact-status branch at 200. -/
theorem C1_response_schema_resolution_witness :
    overriddenJson rdOk200 { statusCode := 404, sentBodies := [] } (.vStr ("x")) =
      { statusCode := 404, sentBodies := [.vStr ("x")] } ∧
    overriddenJson rdOk200 { statusCode := 200, sentBodies := [] } (.vStr ("bad")) =
      { statusCode := 500, sentBodies := [internalErrorBody] } :=
  ⟨(C1_response_schema_resolution rdOk200 { statusCode := 404, sentBodies := [] } (.vStr ("x"))).1 rfl,
   (C1_response_schema_resolution rdOk200 { statusCode := 200, sentBodies := [] } (.vStr ("bad"))).2
     acceptOk rfl rfl⟩

/-- Claim C2: when the handler's body fails validation against the
resolved response schema, the transmitted response has status 500 and
exactly the fixed body, whatever status code the handler had set
(`res.statusCode` is arbitrary here); the failure is absorbed by the
interceptor's catch block — `overriddenJson` is a total function, so no
exception reaches the handler. -/
theorem C2_response_failure_contained (rd : RouteDescription) (res : Res)
    (body : Value) (s : Schema)
    (hs : lookupResponse rd res.statusCode = some s) (hb : s body = none) :
    overriddenJson rd res body =
      { statusCode := 500,
        sentBodies := res.sentBodies ++
          [.vObj [(("status"), .vStr ("Internal server error")),
                  (("message"), .vStr ("Server generated response is out of API spec"))]] } := by
  simp [overriddenJson, hs, hb, internalErrorBody]

/-- Witness for C2: a handler that set status 200 and sent a body the 200
schema rejects gets the fixed 500 response. -/
theorem C2_response_failure_contained_witness :
    overriddenJson rdOk200 { statusCode := 200, sentBodies := [] } (.vStr ("bad")) =
      { statusCode := 500,
        sentBodies := [.vObj [(("status"), .vStr ("Internal server error")),
                              (("message"), .vStr ("Server generated response is out of API spec"))]] } :=
  C2_response_failure_contained rdOk200 { statusCode := 200, sentBodies := [] }
    (.vStr ("bad")) acceptOk rfl rfl

/-- Claim C6 is false on the code: the `res.json` override is never
uninstalled, so a second send is validated too.  Here the first body
passes the 200 schema and the second fails it; were the second send not
validated it would be transmitted verbatim, but the code transmits the
fixed internal-error body and forces status 500. -/
theorem C6_counterexample :
    sendSequence rdOk200 { statusCode := 200, sentBodies := [] }
        [.vStr ("ok"), .vStr ("bad")] =
      { statusCode := 500, sentBodies := [.vStr ("ok"), internalErrorBody] } ∧
    internalErrorBody ≠ .vStr ("bad") := by
  refine ⟨rfl, ?_⟩
  simp [internalErrorBody]

/-- Claim C6 (amended): every `res.json` send on the wrapped response is
intercepted and validated — the override persists for the lifetime of the
response, so a second send is validated against the schema resolved at
the status code current at that moment, exactly like the first. -/
theorem C6_every_send_validated (rd : RouteDescription) (res : Res)
    (b₁ b₂ : Value) (s : Schema)
    (hs : lookupResponse rd ((overriddenJson rd res b₁).statusCode) = some s)
    (hb : s b₂ = none) :
    sendSequence rd res [b₁, b₂] =
      { statusCode := 500,
        sentBodies := (overriddenJson rd res b₁).sentBodies ++ [internalErrorBody] } := by
  have hseq : sendSequence rd res [b₁, b₂] =
      overriddenJson rd (overriddenJson rd res b₁) b₂ := rfl
  rw [hseq]
  exact overriddenJson_of_parse_fail rd (overriddenJson rd res b₁) b₂ s hs hb

/-- Witness for C6 (amended): the second of two sends is validated and
rejected. -/
theorem C6_every_send_validated_witness :
    sendSequence rdOk200 { statusCode := 200, sentBodies := [] }
        [.vStr ("ok"), .vStr ("bad")] =
      { statusCode := 500, sentBodies := [.vStr ("ok"), internalErrorBody] } :=
  C6_every_send_validated rdOk200 { statusCode := 200, sentBodies := [] }
    (.vStr ("ok")) (.vStr ("bad")) acceptOk rfl rfl

/-- Claim C3: the error handler is called exactly once precisely when the
handler chain is not continued; any stage failure (path is tried first —
a path failure is reported even when later categories would also fail)
produces that single error-handler call with the raw failure and stops;
and a request whose path parameters satisfy the declared schema reaches
the handler with `req.params` being exactly the schema's parsed output. -/
theorem C3_request_validation (rd : RouteDescription) (req : Req) :
    ((requestValidator rd req).nextCalled = false ↔
      (requestValidator rd req).errorCalls.length = 1) ∧
    (∀ e r, runValidation rd req = .error (e, r) →
      (requestValidator rd req).errorCalls = [(e, r)] ∧
      (requestValidator rd req).nextCalled = false) ∧
    (∀ s p, rd.paramPath = some s → s req.params = some p →
      (requestValidator rd req).nextCalled = true →
      (requestValidator rd req).req.params = p) := by
  refine ⟨?_, ?_, ?_⟩
  · unfold requestValidator
    cases hrv : runValidation rd req with
    | ok r => simp
    | error er => obtain ⟨e, r⟩ := er; simp
  · intro e r h
    simp [requestValidator, h]
  · intro s p hs hp hnext
    unfold requestValidator at hnext ⊢
    cases hrv : runValidation rd req with
    | error er =>
      obtain ⟨e, r⟩ := er
      rw [hrv] at hnext
      simp at hnext
    | ok r =>
      show r.params = p
      have hpath : pathStage rd req = .ok { req with params := p } := by
        simp [pathStage, hs, hp]
      unfold runValidation at hrv
      rw [hpath] at hrv
      simp only [Except.bind] at hrv
      cases hq : queryStage rd { req with params := p } with
      | error e2 =>
        rw [hq] at hrv
        simp at hrv
      | ok r₂ =>
        rw [hq] at hrv
        simp only [Except.bind] at hrv
        have h₂ := queryStage_ok_frame rd { req with params := p } r₂ hq
        have h₃ := bodyStage_ok_frame rd r₂ r hrv
        rw [h₃.1, h₂.1]

/-- Witness for C3: a passing path schema hands the handler the parsed
params; a rejecting path schema produces one error-handler call and no
handler invocation. -/
theorem C3_request_validation_witness :
    (requestValidator rdPathOnly reqSample).req.params = .vObj [(("id"), .vNum 7)] ∧
    ((requestValidator rdPathReject reqSample).errorCalls = [(.path, reqSample)] ∧
      (requestValidator rdPathReject reqSample).nextCalled = false) :=
  ⟨(C3_request_validation rdPathOnly reqSample).2.2 constIdObj
      (.vObj [(("id"), .vNum 7)]) rfl rfl rfl,
   (C3_request_validation rdPathReject reqSample).2.1 .path reqSample rfl⟩

/-- Claim C7: when a query schema is declared, the value handed to it is
the raw query with exactly the fields that are the literal strings "true"
or "false" coerced to booleans; `coerceBool` changes nothing else, so no
other query value is modified before schema validation. -/
theorem C7_query_boolean_coercion (rd : RouteDescription) (s : Schema) (req : Req)
    (hq : rd.paramQuery = some s) :
    queryStage rd req =
      (match s (coerceQuery req.query) with
       | some q => Except.ok { req with query := q }
       | none => Except.error (.query, { req with query := coerceQuery req.query })) ∧
    coerceBool (.vStr ("true")) = .vBool true ∧
    coerceBool (.vStr ("false")) = .vBool false ∧
    (∀ v, v ≠ .vStr ("true") → v ≠ .vStr ("false") → coerceBool v = v) ∧
    (∀ fs, coerceQuery (.vObj fs) = .vObj (fs.map fun kv => (kv.1, coerceBool kv.2))) := by
  refine ⟨?_, rfl, rfl, ?_, fun fs => rfl⟩
  · unfold queryStage
    rw [hq]
  · intro v h1 h2
    cases v with
    | vStr s2 =>
      have hs1 : s2 ≠ "true" := fun h => h1 (by rw [h])
      have hs2 : s2 ≠ "false" := fun h => h2 (by rw [h])
      simp [coerceBool, hs1, hs2]
    | vNull => rfl
    | vBool b => rfl
    | vNum n => rfl
    | vObj fs => rfl

/-- Witness for C7: a query with one "true"-valued field and one other
string field reaches the (identity) schema with only the former coerced. -/
theorem C7_query_boolean_coercion_witness :
    queryStage rdQueryId
        { params := .vObj [], query := .vObj [(("a"), .vStr ("true")), (("b"), .vStr ("x"))],
          body := .vNull, contentType := none } =
      .ok { params := .vObj [],
            query := .vObj [(("a"), .vBool true), (("b"), .vStr ("x"))],
            body := .vNull, contentType := none } :=
  (C7_query_boolean_coercion rdQueryId idSchema
    { params := .vObj [], query := .vObj [(("a"), .vStr ("true")), (("b"), .vStr ("x"))],
      body := .vNull, contentType := none } rfl).1

/-- Claim C8: the request body is parsed (and replaced by the parsed
value) exactly when the content type is the literal "application/json"
and the descriptor declares a body schema; in every other case the body
stage returns the request completely unchanged. -/
theorem C8_body_validation (rd : RouteDescription) (req : Req) :
    (¬ (req.contentType = some ("application/json") ∧ rd.request.isSome = true) →
      bodyStage rd req = .ok req) ∧
    (∀ s, req.contentType = some ("application/json") → rd.request = some s →
      bodyStage rd req =
        (match s req.body with
         | some b => Except.ok { req with body := b }
         | none => Except.error (.body, req))) := by
  constructor
  · intro h
    unfold bodyStage
    split
    · rename_i hct
      cases hr : rd.request with
      | some s2 => exact absurd ⟨hct, by rw [hr]; rfl⟩ h
      | none => rfl
    · rfl
  · intro s hct hr
    unfold bodyStage
    rw [if_pos hct, hr]

/-- Witness for C8: a non-JSON request with a declared (rejecting) body
schema passes through untouched; the same body under content type
"application/json" is parsed and rejected. -/
theorem C8_body_validation_witness :
    bodyStage rdBodyReject
        { params := .vObj [], query := .vObj [], body := .vStr ("x"), contentType := none } =
      .ok { params := .vObj [], query := .vObj [], body := .vStr ("x"), contentType := none } ∧
    bodyStage rdBodyReject
        { params := .vObj [], query := .vObj [], body := .vStr ("x"),
          contentType := some ("application/json") } =
      .error (.body,
        { params := .vObj [], query := .vObj [], body := .vStr ("x"),
          contentType := some ("application/json") }) :=
  ⟨(C8_body_validation rdBodyReject
      { params := .vObj [], query := .vObj [], body := .vStr ("x"), contentType := none }).1
      (by simp),
   (C8_body_validation rdBodyReject
      { params := .vObj [], query := .vObj [], body := .vStr ("x"),
        contentType := some ("application/json") }).2 rejectAll rfl rfl⟩

/-- Claim C10: the validator does no rollback.  When the query stage
fails after a successful path stage, the request seen by the error
handler keeps the parsed path params; when the body stage fails after
both earlier stages succeeded, it keeps both the parsed params and the
parsed query. -/
theorem C10_no_rollback (rd : RouteDescription) (req : Req) :
    (∀ r₁ e r₂, pathStage rd req = .ok r₁ → queryStage rd r₁ = .error (e, r₂) →
      (requestValidator rd req).errorCalls = [(e, r₂)] ∧ r₂.params = r₁.params) ∧
    (∀ r₁ r₂ e r₃, pathStage rd req = .ok r₁ → queryStage rd r₁ = .ok r₂ →
      bodyStage rd r₂ = .error (e, r₃) →
      (requestValidator rd req).errorCalls = [(e, r₃)] ∧
      r₃.params = r₂.params ∧ r₃.query = r₂.query) := by
  constructor
  · intro r₁ e r₂ hp hq
    have hrv : runValidation rd req = .error (e, r₂) := by
      unfold runValidation
      rw [hp]
      simp only [Except.bind]
      rw [hq]
    exact ⟨by simp [requestValidator, hrv], (queryStage_error_frame rd r₁ e r₂ hq).1⟩
  · intro r₁ r₂ e r₃ hp hq hb
    have hrv : runValidation rd req = .error (e, r₃) := by
      unfold runValidation
      rw [hp]
      simp only [Except.bind]
      rw [hq]
      simp only [Except.bind]
      exact hb
    have heq := bodyStage_error_frame rd r₂ e r₃ hb
    exact ⟨by simp [requestValidator, hrv], by rw [heq], by rw [heq]⟩

/-- Witness for C10: a query failure leaves the parsed (here unchanged)
params and the boolean-coerced query visible to the error handler; a body
failure leaves the parsed params and query visible. -/
theorem C10_no_rollback_witness :
    ((requestValidator rdQueryReject
        { params := .vObj [], query := .vObj [(("a"), .vStr ("true"))],
          body := .vNull, contentType := none }).errorCalls =
      [(.query, { params := .vObj [], query := .vObj [(("a"), .vBool true)],
                  body := .vNull, contentType := none })] ∧
      Req.params { params := .vObj [], query := .vObj [(("a"), .vBool true)],
                   body := .vNull, contentType := none } =
        Req.params { params := .vObj [], query := .vObj [(("a"), .vStr ("true"))],
                     body := .vNull, contentType := none }) ∧
    ((requestValidator rdBodyReject
        { params := .vObj [], query := .vObj [], body := .vStr ("x"),
          contentType := some ("application/json") }).errorCalls =
      [(.body, { params := .vObj [], query := .vObj [], body := .vStr ("x"),
                 contentType := some ("application/json") })] ∧
      Req.params { params := .vObj [], query := .vObj [], body := .vStr ("x"),
                   contentType := some ("application/json") } =
        Req.params { params := .vObj [], query := .vObj [], body := .vStr ("x"),
                     contentType := some ("application/json") } ∧
      Req.query { params := .vObj [], query := .vObj [], body := .vStr ("x"),
                  contentType := some ("application/json") } =
        Req.query { params := .vObj [], query := .vObj [], body := .vStr ("x"),
                    contentType := some ("application/json") }) :=
  ⟨(C10_no_rollback rdQueryReject
      { params := .vObj [], query := .vObj [(("a"), .vStr ("true"))],
        body := .vNull, contentType := none }).1
      { params := .vObj [], query := .vObj [(("a"), .vStr ("true"))],
        body := .vNull, contentType := none }
      .query
      { params := .vObj [], query := .vObj [(("a"), .vBool true)],
        body := .vNull, contentType := none } rfl rfl,
   (C10_no_rollback rdBodyReject
      { params := .vObj [], query := .vObj [], body := .vStr ("x"),
        contentType := some ("application/json") }).2
      { params := .vObj [], query := .vObj [], body := .vStr ("x"),
        contentType := some ("application/json") }
      { params := .vObj [], query := .vObj [], body := .vStr ("x"),
        contentType := some ("application/json") }
      .body
      { params := .vObj [], query := .vObj [], body := .vStr ("x"),
        contentType := some ("application/json") } rfl rfl rfl⟩

/-- Claim C9: registering a route with no descriptor in the contract
delegates to the underlying registrar with exactly the caller's handlers
— the resulting middleware chain is the one unmodified registration would
produce, with no validation middleware added. -/
theorem C9_unmatched_passthrough (apiDef : Api) (config : RouterConfig)
    (method path : String) (handlers : List Handler)
    (h : lookupRoute apiDef path method = none) :
    registerRoute apiDef config method path handlers = handlers := by
  unfold registerRoute
  rw [h]

/-- Witness for C9: an empty contract leaves a registration of two user
handlers untouched. -/
theorem C9_unmatched_passthrough_witness :
    registerRoute [] { attachResponseValidator := true } ("get") ("/health")
      [.user 0, .user 1] = [.user 0, .user 1] :=
  C9_unmatched_passthrough [] { attachResponseValidator := true } ("get") ("/health")
    [.user 0, .user 1] rfl

/-- Whether `pat` occurs as a contiguous sublist of `s`. -/
def occursIn (pat : List Char) : List Char → Bool
  | [] => pat == []
  | c :: rest => startsWith pat (c :: rest) || occursIn pat rest

/-- JS `replace` with a pattern that does not occur returns the string
unchanged. -/
theorem listReplaceFirst_of_not_occurs (pat repl : List Char) :
    ∀ s, occursIn pat s = false → listReplaceFirst pat repl s = s := by
  intro s
  induction s with
  | nil =>
    intro h
    simp only [occursIn] at h
    simp [listReplaceFirst, h]
  | cons c rest ih =>
    intro h
    simp only [occursIn, Bool.or_eq_false_iff] at h
    simp [listReplaceFirst, h.1, ih h.2]

/-- Claim C4 is false on the code: `String.replace` with a string pattern
substitutes only the first occurrence, so in a template in which the same
placeholder occurs twice the second occurrence survives, where the claim
("replaces every occurrence") requires "/a/7/7". -/
theorem C4_counterexample :
    (buildAxiosConfig ("get") ("/a/:id/:id")
        (some { path := some [(("id"), PathValue.num 7)] })).url = "/a/7/:id" ∧
    ("/a/7/:id" : String) ≠ "/a/7/7" := by
  constructor
  · decide
  · decide

/-- Claim C4 (amended): the Request Builder replaces, for each key of the
`path` object, only the first occurrence of `:name` in the template
(later duplicate occurrences are left verbatim); a placeholder whose
pattern does not occur leaves the URL unchanged and raises no error; with
no input object the template is returned unmodified; and the two
documented examples behave as stated. -/
theorem C4_request_builder :
    (∀ (method path : String),
      buildAxiosConfig method path none = { method := method, url := path }) ∧
    (∀ (url k : String) (v : PathValue),
      occursIn (":" ++ k).data url.data = false →
      replacePathParams url [(k, v)] = url) ∧
    (buildAxiosConfig ("get") ("/users/:id")
        (some { path := some [(("id"), PathValue.num 7)] })).url = "/users/7" ∧
    (buildAxiosConfig ("get") ("/users/:id") none).url = "/users/:id" ∧
    (buildAxiosConfig ("get") ("/a/:id/:id")
        (some { path := some [(("id"), PathValue.num 7)] })).url = "/a/7/:id" := by
  refine ⟨fun method path => rfl, ?_, by decide, rfl, by decide⟩
  intro url k v h
  show replaceFirst url (":" ++ k) v.asString = url
  unfold replaceFirst
  rw [listReplaceFirst_of_not_occurs _ _ _ h]

/-- Witness for C4 (amended): a URL without the placeholder is returned
unchanged, and a no-config call returns the template. -/
theorem C4_request_builder_witness :
    replacePathParams ("/users") [(("id"), PathValue.num 7)] = "/users" ∧
    buildAxiosConfig ("get") ("/users/:id") none = { method := "get", url := "/users/:id" } :=
  ⟨C4_request_builder.2.1 ("/users") ("id") (PathValue.num 7) (by decide),
   C4_request_builder.1 ("get") ("/users/:id")⟩

/-- Claim C5: `isErrorOf` is true exactly when the caught value is a
transport (axios) error whose originating config carries that method and
that url and whose attached response carries exactly that status; it is
false for non-transport errors and for transport errors with no response
(network failures).  The embedding is a pure boolean function of its
arguments, so the predicate mutates nothing. -/
theorem C5_isErrorOf (err : CaughtValue) (method path : String) (code : Nat) :
    (isErrorOf err method path code = true ↔
      (err.isAxiosError = true ∧
       err.config.bind AxiosErrorConfig.method = some method ∧
       err.config.bind AxiosErrorConfig.url = some path ∧
       err.response.map AxiosErrorResponse.status = some code)) ∧
    (err.isAxiosError = false → isErrorOf err method path code = false) ∧
    (err.response = none → isErrorOf err method path code = false) := by
  obtain ⟨ax, cfg, resp⟩ := err
  refine ⟨?_, ?_, ?_⟩
  · unfold isErrorOf
    split_ifs with h1 h2 h3 h4 <;> simp_all
  · intro h
    simp at h
    subst h
    rfl
  · intro h
    simp at h
    subst h
    unfold isErrorOf
    split_ifs with h1 h2 h3 h4 <;> simp_all

/-- An axios error from a GET of "/users/:id" that received no response
(network failure). -/
def errNoResponse : CaughtValue :=
  { isAxiosError := true,
    config := some { method := some ("get"), url := some ("/users/:id") },
    response := none }

/-- A caught value that is not an axios error at all. -/
def errNotAxios : CaughtValue :=
  { isAxiosError := false, config := none, response := none }

/-- An axios error from a GET of "/users/:id" whose response carried
status 404. -/
def errMatching : CaughtValue :=
  { isAxiosError := true,
    config := some { method := some ("get"), url := some ("/users/:id") },
    response := some { status := 404 } }

/-- Witness for C5: a network failure with no response never matches, a
non-axios error never matches, and a fully matching axios error does. -/
theorem C5_isErrorOf_witness :
    isErrorOf errNoResponse ("get") ("/users/:id") 404 = false ∧
    isErrorOf errNotAxios ("get") ("/users/:id") 404 = false ∧
    isErrorOf errMatching ("get") ("/users/:id") 404 = true :=
  ⟨(C5_isErrorOf errNoResponse ("get") ("/users/:id") 404).2.2 rfl,
   (C5_isErrorOf errNotAxios ("get") ("/users/:id") 404).2.1 rfl,
   (C5_isErrorOf errMatching ("get") ("/users/:id") 404).1.mpr ⟨rfl, rfl, rfl, rfl⟩⟩

end ExZodus
